import Mathlib

set_option linter.unusedVariables false

/-!
Verification development for the `reporter` package of aerfio/k8s-reporter.

The package exposes a `YamlReporter` built via functional options
(`WithDynamicClient`, `WithGVRSchema`), validated by `checkConfig`, and two
read operations `List` and `Get` that fetch unstructured objects from a
dynamic Kubernetes client and serialize each to YAML.

The embedding below translates `src/reporter.go` directly. External
collaborators (the dynamic client and the YAML serializer) are modelled as
function-valued structures, respectively a concrete serializer written from
the spec's serialization-collaborator contract.
-/

namespace Reporter

/-- Go errors that can flow through this package: the two configuration
errors declared in reporter.go, plus errors produced by the external
collaborators (backing store and serializer). The backing store's
"not found" category is kept distinguishable, as its contract requires. -/
inductive GoError where
  | NoDynamicCliSetError
  | NoGroupVersionResourceSetError
  | notFound (msg : String)
  | storeError (msg : String)
  | marshalError (msg : String)
deriving DecidableEq, Repr, Inhabited

/-- `schema.GroupVersionResource`: the resource-type descriptor triple. -/
structure GroupVersionResource where
  group : String
  version : String
  resource : String
deriving DecidableEq, Repr, Inhabited

/-- The untyped nested key-value data held by an unstructured object
(`item.Object` in Go): scalars, maps and sequences, plus a constructor for
values the YAML serializer cannot represent (e.g. Go channels/functions),
so the serializer's failure branch is expressible. -/
inductive UnstructuredValue where
  | str (s : String)
  | map (fields : List (String × UnstructuredValue))
  | seq (items : List UnstructuredValue)
  | unrepresentable (tag : String)
deriving Inhabited

/-- `unstructured.Unstructured`: one resource instance as returned by the
backing store; `object` is its untyped representation. -/
structure Unstructured where
  object : UnstructuredValue
deriving Inhabited

/-- `unstructured.UnstructuredList`: the collection returned by a List call. -/
structure UnstructuredList where
  items : List Unstructured
deriving Inhabited

/-- `metav1.ListOptions`: opaque filter/selector passthrough. -/
structure ListOptions where
  labelSelector : String
  fieldSelector : String
deriving DecidableEq, Repr, Inhabited

/-- `metav1.GetOptions`: opaque passthrough (e.g. a resource version). -/
structure GetOptions where
  resourceVersion : String
deriving DecidableEq, Repr, Inhabited

/-- `context.Context`: cancellation/deadline data. The reporter accepts it
but (per the code comments on List/Get) never reacts to it. -/
structure Context where
  cancelled : Bool
  deadline : Option Nat
deriving DecidableEq, Repr, Inhabited

/-- `dynamic.ResourceInterface` narrowed to a namespace: the backing store's
List and Get operations for one resource type and one namespace. -/
structure ResourceInterface where
  list : ListOptions → Except GoError UnstructuredList
  get : String → GetOptions → Except GoError Unstructured
deriving Inhabited

/-- `dynamic.NamespaceableResourceInterface`: the bound resource-accessor
handle; `ns` is Go's `.Namespace(namespace)`. -/
structure NamespaceableResourceInterface where
  ns : String → ResourceInterface
deriving Inhabited

/-- `dynamic.Interface`: the dynamic client; `resource` is Go's
`.Resource(gvr)`. -/
structure DynamicInterface where
  resource : GroupVersionResource → NamespaceableResourceInterface
deriving Inhabited

/-- `YamlReporter`: Go pointer fields (`*dynamic.Interface`,
`*schema.GroupVersionResource`) and the nilable interface field `resource`
become `Option`s; the Go zero value `YamlReporter{}` is all-`none`. -/
structure YamlReporter where
  dynamicCli : Option DynamicInterface
  gvrSchema : Option GroupVersionResource
  resource : Option NamespaceableResourceInterface
deriving Inhabited

/-- Go's zero value `YamlReporter{}`. -/
def zeroReporter : YamlReporter := { dynamicCli := none, gvrSchema := none, resource := none }

/-- The `Option` interface of reporter.go: one constructor per concrete
option struct (`dynCliOption`, `gvrOption`). -/
inductive ReporterOption where
  | dynCliOption (DynamicCli : DynamicInterface)
  | gvrOption (schema : GroupVersionResource)

/-- The `apply` methods of `dynCliOption` and `gvrOption`: each writes its
payload into the corresponding field of the builder target. -/
def ReporterOption.apply : ReporterOption → YamlReporter → YamlReporter
  | .dynCliOption d, r => { r with dynamicCli := some d }
  | .gvrOption g, r => { r with gvrSchema := some g }

/-- `WithDynamicClient`. -/
def WithDynamicClient (dynamicCli : DynamicInterface) : ReporterOption :=
  .dynCliOption dynamicCli

/-- `WithGVRSchema`. -/
def WithGVRSchema (schema : GroupVersionResource) : ReporterOption :=
  .gvrOption schema

/-- `checkConfig`: dynamicCli is checked first, then gvrSchema; at most one
error is produced. -/
def YamlReporter.checkConfig (r : YamlReporter) : Option GoError :=
  if r.dynamicCli.isNone then some .NoDynamicCliSetError
  else if r.gvrSchema.isNone then some .NoGroupVersionResourceSetError
  else none

/-- The option-application loop of `New`: `for _, opt := range opts { opt.apply(instance) }`. -/
def applyOptions (opts : List ReporterOption) : YamlReporter :=
  opts.foldl (fun r o => o.apply r) zeroReporter

/-- `New`: applies the options in order, validates, and on success binds
the resource-accessor handle; Go's `(YamlReporter, error)` return becomes a
pair. The `.get!`s mirror Go's pointer dereferences at line 66, which are
guarded by `checkConfig` having passed. -/
def New (opts : List ReporterOption) : YamlReporter × Option GoError :=
  let inst := applyOptions opts
  match inst.checkConfig with
  | some err => (zeroReporter, some err)
  | none =>
      ({ inst with resource := some ((inst.dynamicCli.get!).resource (inst.gvrSchema.get!)) }, none)

mutual

/-- Modelled from the spec: `yaml.Marshal` of github.com/ghodss/yaml, the
external serialization collaborator (its code is not in this repository).
Per the spec's serialization-collaborator contract it converts an untyped
structured object (nested maps/sequences/scalars) into YAML text, and
fails with a distinct error if the input contains values it cannot
represent. -/
def yamlMarshal : UnstructuredValue → Except GoError String
  | .str s => .ok s
  | .map fields => yamlMarshalFields fields
  | .seq items => yamlMarshalItems items
  | .unrepresentable tag => .error (.marshalError tag)

/-- Modelled from the spec: YAML rendering of a map, one `key: value` block
per field, in field order, failing on the first unrepresentable value. -/
def yamlMarshalFields : List (String × UnstructuredValue) → Except GoError String
  | [] => .ok ""
  | (k, v) :: rest =>
    match yamlMarshal v, yamlMarshalFields rest with
    | .ok sv, .ok srest => .ok (k ++ ": " ++ sv ++ "\n" ++ srest)
    | .error e, _ => .error e
    | _, .error e => .error e

/-- Modelled from the spec: YAML rendering of a sequence, one `- value`
block per element, in element order, failing on the first unrepresentable
value. -/
def yamlMarshalItems : List UnstructuredValue → Except GoError String
  | [] => .ok ""
  | v :: rest =>
    match yamlMarshal v, yamlMarshalItems rest with
    | .ok sv, .ok srest => .ok ("- " ++ sv ++ "\n" ++ srest)
    | .error e, _ => .error e
    | _, .error e => .error e

end

/-- The body of `List`'s for-loop over `unstructuredList.Items`: marshals
each item in order, returning `(nil, err)` on the first failure and
appending the YAML block to `resources` otherwise. -/
def listLoop : List Unstructured → List String → Option (List String) × Option GoError
  | [], resources => (some resources, none)
  | item :: rest, resources =>
    match yamlMarshal item.object with
    | .error err => (none, some err)
    | .ok out => listLoop rest (resources ++ [out])

/-- `YamlReporter.List`: queries the backing store for the configured
resource type in the given namespace, then serializes every returned item.
Go's `([]string, error)` return becomes a pair whose first component is
`none` for Go's nil slice. The `ctx` parameter is accepted but unused, as
in the code. The `.get!` mirrors Go's use of the `resource` field, which
is only non-nil on reporters produced by a successful `New`. -/
def YamlReporter.List (r : YamlReporter) (ctx : Context) (ns : String) (options : ListOptions) : Option (List String) × Option GoError :=
  match ((r.resource.get!).ns ns).list options with
  | .error err => (none, some err)
  | .ok unstructuredList => listLoop unstructuredList.items []

/-- `YamlReporter.Get`: fetches one instance by name and namespace from
the backing store and serializes it; on any failure returns the empty
string with the error. The `ctx` parameter is accepted but unused. -/
def YamlReporter.Get (r : YamlReporter) (ctx : Context) (name ns : String) (options : GetOptions) : String × Option GoError :=
  match ((r.resource.get!).ns ns).get name options with
  | .error err => ("", some err)
  | .ok unstructuredObj =>
    match yamlMarshal unstructuredObj.object with
    | .error err => ("", some err)
    | .ok out => (out, none)

/-- Specification-side description of the List loop: serialize each item
independently, in order, stopping at the first failure. `List` is compared
against this below. -/
def marshalEach : List Unstructured → Except GoError (List String)
  | [] => .ok []
  | item :: rest =>
    match yamlMarshal item.object, marshalEach rest with
    | .ok out, .ok outs => .ok (out :: outs)
    | .error e, _ => .error e
    | .ok _, .error e => .error e

/-- Concrete resource-type descriptor used to exercise the theorems. -/
def gvrPods : GroupVersionResource := { group := "group", version := "version", resource := "pods" }

/-- A typical unstructured pod object carrying apiVersion, kind and
metadata.name / metadata.namespace, as the backing store returns them. -/
def podObj (name ns : String) : UnstructuredValue :=
  .map [("apiVersion", .str "group/version"), ("kind", .str "Pod"),
        ("metadata", .map [("name", .str name), ("namespace", .str ns)])]

/-- The YAML text the modelled serializer produces for `podObj name ns`. -/
def podYaml (name ns : String) : String :=
  "apiVersion: group/version\nkind: Pod\nmetadata: name: " ++ name ++
    "\nnamespace: " ++ ns ++ "\n\n"

/-- A concrete backing store: namespace "ns-foo" holds pods "foo" and
"bar"; every other namespace is empty and Get fails as not-found there. -/
def storeNri : NamespaceableResourceInterface :=
  { ns := fun ns =>
      { list := fun _ =>
          if ns = "ns-foo" then .ok { items := [{ object := podObj "foo" ns }, { object := podObj "bar" ns }] }
          else .ok { items := [] }
        get := fun name _ =>
          if ns = "ns-foo" ∧ name = "foo" then .ok { object := podObj "foo" ns }
          else .error (.notFound "not found") } }

/-- A backing store whose calls all fail with an access error. -/
def failingNri : NamespaceableResourceInterface :=
  { ns := fun _ =>
      { list := fun _ => .error (.storeError "connection refused")
        get := fun _ _ => .error (.storeError "connection refused") } }

/-- A backing store returning an object the serializer cannot represent. -/
def badObjNri : NamespaceableResourceInterface :=
  { ns := fun _ =>
      { list := fun _ => .ok { items := [{ object := .unrepresentable "chan" }] }
        get := fun _ _ => .ok { object := .unrepresentable "chan" } } }

/-- A concrete dynamic client: every resource type maps to `storeNri`. -/
def cliPods : DynamicInterface := { resource := fun _ => storeNri }

/-- A fully configured reporter over `storeNri`. -/
def reporterPods : YamlReporter :=
  { dynamicCli := some cliPods, gvrSchema := some gvrPods, resource := some storeNri }

/-- A fully configured reporter over the failing store. -/
def reporterFailing : YamlReporter :=
  { dynamicCli := some cliPods, gvrSchema := some gvrPods, resource := some failingNri }

/-- A fully configured reporter over the store with unserializable data. -/
def reporterBadObj : YamlReporter :=
  { dynamicCli := some cliPods, gvrSchema := some gvrPods, resource := some badObjNri }

/-- Trivial list options, for concrete instantiations. -/
def listOptions0 : ListOptions := { labelSelector := "", fieldSelector := "" }

/-- Trivial get options, for concrete instantiations. -/
def getOptions0 : GetOptions := { resourceVersion := "" }

/-- A concrete context value. -/
def ctxA : Context := { cancelled := false, deadline := none }

/-- A second, different concrete context value. -/
def ctxB : Context := { cancelled := true, deadline := some 5 }

/-- C1: if after applying the supplied options both the dynamic client and
the resource-type descriptor are set, `New` succeeds (no error) and returns
the reporter whose bound resource-accessor handle is the supplied client
narrowed to the supplied descriptor; moreover on every path any reporter
returned without an error is fully configured in exactly that shape, so no
partially-configured instance is ever returned. -/
theorem New_with_both_succeeds (opts : List ReporterOption)
    (c : DynamicInterface) (g : GroupVersionResource)
    (hc : (applyOptions opts).dynamicCli = some c)
    (hg : (applyOptions opts).gvrSchema = some g) :
    New opts = ({ dynamicCli := some c, gvrSchema := some g,
                  resource := some (c.resource g) }, none) ∧
    ∀ opts' : List ReporterOption, (New opts').2 = none →
      ∃ c' g', (New opts').1 =
        { dynamicCli := some c', gvrSchema := some g',
          resource := some (c'.resource g') } := by
  constructor
  · simp [New, YamlReporter.checkConfig, hc, hg, Option.get!_some]
  · intro opts' hnone
    cases hd : (applyOptions opts').dynamicCli with
    | none => simp [New, YamlReporter.checkConfig, hd] at hnone
    | some c' =>
      cases hg' : (applyOptions opts').gvrSchema with
      | none => simp [New, YamlReporter.checkConfig, hd, hg'] at hnone
      | some g' =>
        exact ⟨c', g', by simp [New, YamlReporter.checkConfig, hd, hg', Option.get!_some]⟩

/-- Witness for C1: constructing with a concrete client and descriptor. -/
theorem New_with_both_succeeds_witness :
    New [WithDynamicClient cliPods, WithGVRSchema gvrPods] =
      ({ dynamicCli := some cliPods, gvrSchema := some gvrPods,
         resource := some (cliPods.resource gvrPods) }, none) :=
  (New_with_both_succeeds [WithDynamicClient cliPods, WithGVRSchema gvrPods]
    cliPods gvrPods rfl rfl).1

/-- C2: for every option sequence, `New` fails with `NoDynamicCliSetError`
whenever the dynamic-client field is unset after applying the options
(whatever the descriptor field holds — the check takes priority), and with
`NoGroupVersionResourceSetError` when the client is set but the descriptor
is not; the returned pair carries exactly one error. -/
theorem New_missing_config_errors (opts : List ReporterOption) :
    ((applyOptions opts).dynamicCli = none →
      New opts = (zeroReporter, some GoError.NoDynamicCliSetError)) ∧
    ((applyOptions opts).dynamicCli ≠ none →
      (applyOptions opts).gvrSchema = none →
      New opts = (zeroReporter, some GoError.NoGroupVersionResourceSetError)) := by
  constructor
  · intro h
    simp [New, YamlReporter.checkConfig, h]
  · intro h1 h2
    cases hd : (applyOptions opts).dynamicCli with
    | none => exact absurd hd h1
    | some c => simp [New, YamlReporter.checkConfig, hd, h2]

/-- Witness for C2: no options at all, only a descriptor, only a client. -/
theorem New_missing_config_errors_witness :
    New [] = (zeroReporter, some GoError.NoDynamicCliSetError) ∧
    New [WithGVRSchema gvrPods] = (zeroReporter, some GoError.NoDynamicCliSetError) ∧
    New [WithDynamicClient cliPods] =
      (zeroReporter, some GoError.NoGroupVersionResourceSetError) :=
  ⟨(New_missing_config_errors []).1 rfl,
   (New_missing_config_errors [WithGVRSchema gvrPods]).1 rfl,
   (New_missing_config_errors [WithDynamicClient cliPods]).2
     (fun h => Option.noConfusion h) rfl⟩

/-- C3: whenever `New` returns an error, the reporter component of the
returned pair is Go's zero value `YamlReporter{}` — never an instance
carrying partially applied configuration. -/
theorem New_failure_returns_zero (opts : List ReporterOption) (r : YamlReporter)
    (e : GoError) (h : New opts = (r, some e)) : r = zeroReporter := by
  simp only [New] at h
  cases hc : (applyOptions opts).checkConfig with
  | some err =>
    rw [hc] at h
    simp only [Prod.mk.injEq] at h
    exact h.1.symm
  | none =>
    rw [hc] at h
    simp at h

/-- Witness for C3: the failing empty-option construction returns the zero
reporter. -/
theorem New_failure_returns_zero_witness : (New []).1 = zeroReporter :=
  New_failure_returns_zero [] (New []).1 GoError.NoDynamicCliSetError rfl

/-- C10: options are applied to the builder target strictly in supplied
order (folding from the left), a repeated option of the same kind
overwrites the field set by an earlier one, and `New` on a sequence with
duplicated option kinds builds the reporter from the last occurrence of
each kind. -/
theorem options_apply_in_order_last_wins :
    (∀ opts opts' : List ReporterOption,
      applyOptions (opts ++ opts') =
        opts'.foldl (fun r o => o.apply r) (applyOptions opts)) ∧
    (∀ (r : YamlReporter) (c c' : DynamicInterface),
      (ReporterOption.dynCliOption c').apply ((ReporterOption.dynCliOption c).apply r) =
        (ReporterOption.dynCliOption c').apply r) ∧
    (∀ (r : YamlReporter) (g g' : GroupVersionResource),
      (ReporterOption.gvrOption g').apply ((ReporterOption.gvrOption g).apply r) =
        (ReporterOption.gvrOption g').apply r) ∧
    (∀ (c c' : DynamicInterface) (g g' : GroupVersionResource),
      New [WithDynamicClient c, WithGVRSchema g,
           WithDynamicClient c', WithGVRSchema g'] =
        ({ dynamicCli := some c', gvrSchema := some g',
           resource := some (c'.resource g') }, none)) := by
  refine ⟨?_, ?_, ?_, ?_⟩
  · intro opts opts'
    simp [applyOptions, List.foldl_append]
  · intro r c c'
    rfl
  · intro r g g'
    rfl
  · intro c c' g g'
    rfl

/-- Helper: the accumulator-passing loop of `List` agrees with independent
per-item serialization in order. -/
theorem listLoop_eq_marshalEach (items : List Unstructured) (acc : List String) :
    listLoop items acc =
      match marshalEach items with
      | .ok outs => (some (acc ++ outs), none)
      | .error e => (none, some e) := by
  induction items generalizing acc with
  | nil => simp [listLoop, marshalEach]
  | cons item rest ih =>
    cases hm : yamlMarshal item.object with
    | error e => simp [listLoop, marshalEach, hm]
    | ok out =>
      cases hr : marshalEach rest with
      | error e => simp [listLoop, marshalEach, hm, hr, ih]
      | ok outs => simp [listLoop, marshalEach, hm, hr, ih]

/-- Helper: successful per-item serialization yields exactly one output
per input item, each output being that item's serialization, at the same
index. -/
theorem marshalEach_ok_spec {items : List Unstructured} {outs : List String}
    (h : marshalEach items = .ok outs) :
    outs.length = items.length ∧
    ∀ (i : Nat) (item : Unstructured), items[i]? = some item →
      ∃ out, yamlMarshal item.object = .ok out ∧ outs[i]? = some out := by
  induction items generalizing outs with
  | nil =>
    simp [marshalEach] at h
    subst h
    exact ⟨rfl, by intro i item hi; simp at hi⟩
  | cons item rest ih =>
    cases hm : yamlMarshal item.object with
    | error e => simp [marshalEach, hm] at h
    | ok out =>
      cases hr : marshalEach rest with
      | error e => simp [marshalEach, hm, hr] at h
      | ok outs' =>
        simp [marshalEach, hm, hr] at h
        subst h
        obtain ⟨hlen, hidx⟩ := ih hr
        refine ⟨by simp [hlen], ?_⟩
        intro i it hi
        cases i with
        | zero =>
          simp at hi
          subst hi
          exact ⟨out, hm, by simp⟩
        | succ n =>
          simp only [List.getElem?_cons_succ] at hi ⊢
          exact hidx n it hi

/-- Helper: every field value of a serialized map has its own serialization
occurring inside the map's serialization. -/
theorem marshalFields_mem_infix {fields : List (String × UnstructuredValue)}
    {k : String} {v : UnstructuredValue} {s : String}
    (hmem : (k, v) ∈ fields) (hs : yamlMarshalFields fields = .ok s) :
    ∃ sv, yamlMarshal v = .ok sv ∧ sv.data <:+: s.data := by
  induction fields generalizing s with
  | nil => cases hmem
  | cons hd tl ih =>
    obtain ⟨k', v'⟩ := hd
    cases hm : yamlMarshal v' with
    | error e => simp [yamlMarshalFields, hm] at hs
    | ok sv' =>
      cases hr : yamlMarshalFields tl with
      | error e => simp [yamlMarshalFields, hm, hr] at hs
      | ok srest =>
        simp only [yamlMarshalFields, hm, hr, Except.ok.injEq] at hs
        subst hs
        rcases List.mem_cons.mp hmem with heq | hmem'
        · injection heq with hk hv
          subst hk
          subst hv
          refine ⟨sv', hm, ⟨(k ++ ": ").data, "\n".data ++ srest.data, ?_⟩⟩
          simp [String.data_append]
        · obtain ⟨sv, hmv, hinf⟩ := ih hmem' hr
          refine ⟨sv, hmv, hinf.trans ⟨(k' ++ ": " ++ sv' ++ "\n").data, [], ?_⟩⟩
          simp [String.data_append]

/-- C4: when the backing store's List succeeds and every returned instance
serializes, `List` returns exactly one YAML block per instance — each the
serialization of that instance's untyped representation — in store order,
with no reordering, filtering or duplication, and no error. -/
theorem List_serializes_in_order (r : YamlReporter)
    (nri : NamespaceableResourceInterface) (hr : r.resource = some nri)
    (ctx : Context) (ns : String) (options : ListOptions)
    (ul : UnstructuredList) (outs : List String)
    (hstore : (nri.ns ns).list options = .ok ul)
    (hmarshal : marshalEach ul.items = .ok outs) :
    r.List ctx ns options = (some outs, none) ∧
    outs.length = ul.items.length ∧
    ∀ (i : Nat) (item : Unstructured), ul.items[i]? = some item →
      ∃ out, yamlMarshal item.object = .ok out ∧ outs[i]? = some out := by
  obtain ⟨hlen, hidx⟩ := marshalEach_ok_spec hmarshal
  refine ⟨?_, hlen, hidx⟩
  simp only [YamlReporter.List, hr, Option.get!_some, hstore]
  rw [listLoop_eq_marshalEach]
  simp [hmarshal]

/-- Witness for C4: listing the two-pod namespace returns both YAML blocks
in store order. -/
theorem List_serializes_in_order_witness :
    reporterPods.List ctxA "ns-foo" listOptions0 =
      (some [podYaml "foo" "ns-foo", podYaml "bar" "ns-foo"], none) :=
  (List_serializes_in_order reporterPods storeNri rfl ctxA "ns-foo" listOptions0
    { items := [{ object := podObj "foo" "ns-foo" }, { object := podObj "bar" "ns-foo" }] }
    [podYaml "foo" "ns-foo", podYaml "bar" "ns-foo"] rfl rfl).1

/-- C5: a backing store returning zero instances makes `List` return the
empty sequence and no error. -/
theorem List_empty_store (r : YamlReporter)
    (nri : NamespaceableResourceInterface) (hr : r.resource = some nri)
    (ctx : Context) (ns : String) (options : ListOptions)
    (hstore : (nri.ns ns).list options = .ok { items := [] }) :
    r.List ctx ns options = (some [], none) := by
  simp [YamlReporter.List, hr, Option.get!_some, hstore, listLoop]

/-- Witness for C5: the unpopulated namespace "ns-foo-other" yields zero
results and no error. -/
theorem List_empty_store_witness :
    reporterPods.List ctxA "ns-foo-other" listOptions0 = (some [], none) :=
  List_empty_store reporterPods storeNri rfl ctxA "ns-foo-other" listOptions0 rfl

/-- C6: `List` passes a backing-store failure through unchanged with no
partial results (Go's nil slice), and likewise aborts with the
serialization error and no partial results when any single instance fails
to serialize. -/
theorem List_error_aborts (r : YamlReporter)
    (nri : NamespaceableResourceInterface) (hr : r.resource = some nri)
    (ctx : Context) (ns : String) (options : ListOptions) :
    (∀ e, (nri.ns ns).list options = .error e →
      r.List ctx ns options = (none, some e)) ∧
    (∀ ul e, (nri.ns ns).list options = .ok ul →
      marshalEach ul.items = .error e →
      r.List ctx ns options = (none, some e)) := by
  constructor
  · intro e hstore
    simp [YamlReporter.List, hr, Option.get!_some, hstore]
  · intro ul e hstore hm
    simp only [YamlReporter.List, hr, Option.get!_some, hstore]
    rw [listLoop_eq_marshalEach]
    simp [hm]

/-- Witness for C6: a failing store's error is passed through, and an
unserializable instance aborts the call; both with Go's nil slice. -/
theorem List_error_aborts_witness :
    reporterFailing.List ctxA "ns-foo" listOptions0 =
      (none, some (GoError.storeError "connection refused")) ∧
    reporterBadObj.List ctxA "ns-foo" listOptions0 =
      (none, some (GoError.marshalError "chan")) :=
  ⟨(List_error_aborts reporterFailing failingNri rfl ctxA "ns-foo" listOptions0).1
      (GoError.storeError "connection refused") rfl,
   (List_error_aborts reporterBadObj badObjNri rfl ctxA "ns-foo" listOptions0).2
      { items := [{ object := .unrepresentable "chan" }] }
      (GoError.marshalError "chan") rfl rfl⟩

/-- C7: when the backing store returns one instance for the requested name
and namespace and serialization succeeds, `Get` returns exactly that
instance's YAML serialization and no error; and whenever the instance's
untyped representation carries the usual apiVersion and metadata fields
(with the configured version occurring in apiVersion), the returned string
contains the instance's name, namespace and the configured version as
substrings. -/
theorem Get_found_serializes (r : YamlReporter)
    (nri : NamespaceableResourceInterface) (hr : r.resource = some nri)
    (ctx : Context) (name ns : String) (options : GetOptions)
    (obj : Unstructured) (out : String)
    (hstore : (nri.ns ns).get name options = .ok obj)
    (hmarshal : yamlMarshal obj.object = .ok out) :
    r.Get ctx name ns options = (out, none) ∧
    ∀ (g : GroupVersionResource) (av : String)
      (metaFields topFields : List (String × UnstructuredValue)),
      r.gvrSchema = some g →
      obj.object = .map topFields →
      ("apiVersion", .str av) ∈ topFields →
      g.version.data <:+: av.data →
      ("metadata", .map metaFields) ∈ topFields →
      ("name", .str name) ∈ metaFields →
      ("namespace", .str ns) ∈ metaFields →
      name.data <:+: out.data ∧ ns.data <:+: out.data ∧
        g.version.data <:+: out.data := by
  constructor
  · simp [YamlReporter.Get, hr, Option.get!_some, hstore, hmarshal]
  · intro g av metaFields topFields hg hobj havmem hver hmetamem hnamemem hnsmem
    rw [hobj] at hmarshal
    simp only [yamlMarshal] at hmarshal
    obtain ⟨sm, hsm, hsminf⟩ := marshalFields_mem_infix hmetamem hmarshal
    simp only [yamlMarshal] at hsm
    obtain ⟨sn, hsn, hsninf⟩ := marshalFields_mem_infix hnamemem hsm
    simp only [yamlMarshal, Except.ok.injEq] at hsn
    subst hsn
    obtain ⟨sns, hsns, hsnsinf⟩ := marshalFields_mem_infix hnsmem hsm
    simp only [yamlMarshal, Except.ok.injEq] at hsns
    subst hsns
    obtain ⟨sav, hsav, hsavinf⟩ := marshalFields_mem_infix havmem hmarshal
    simp only [yamlMarshal, Except.ok.injEq] at hsav
    subst hsav
    exact ⟨hsninf.trans hsminf, hsnsinf.trans hsminf, hver.trans hsavinf⟩

/-- Witness for C7: fetching pod "foo" in "ns-foo" returns its YAML, which
contains the name, the namespace and the configured version. -/
theorem Get_found_serializes_witness :
    reporterPods.Get ctxA "foo" "ns-foo" getOptions0 =
      (podYaml "foo" "ns-foo", none) ∧
    "foo".data <:+: (podYaml "foo" "ns-foo").data ∧
    "ns-foo".data <:+: (podYaml "foo" "ns-foo").data ∧
    "version".data <:+: (podYaml "foo" "ns-foo").data := by
  have h := Get_found_serializes reporterPods storeNri rfl ctxA "foo" "ns-foo"
    getOptions0 { object := podObj "foo" "ns-foo" } (podYaml "foo" "ns-foo")
    rfl rfl
  refine ⟨h.1, ?_⟩
  exact h.2 gvrPods "group/version"
    [("name", .str "foo"), ("namespace", .str "ns-foo")]
    [("apiVersion", .str "group/version"), ("kind", .str "Pod"),
     ("metadata", .map [("name", .str "foo"), ("namespace", .str "ns-foo")])]
    rfl rfl (List.mem_cons_self _ _) (by decide)
    (List.mem_cons_of_mem _ (List.mem_cons_of_mem _ (List.mem_cons_self _ _)))
    (List.mem_cons_self _ _)
    (List.mem_cons_of_mem _ (List.mem_cons_self _ _))

/-- C8: on any failure of `Get` — the store's not-found error, any other
store error (both passed through unchanged, so not-found stays
distinguishable), or a serialization error — the empty string is returned
alongside the error. -/
theorem Get_failure_empty_string (r : YamlReporter)
    (nri : NamespaceableResourceInterface) (hr : r.resource = some nri)
    (ctx : Context) (name ns : String) (options : GetOptions) :
    (∀ e, (nri.ns ns).get name options = .error e →
      r.Get ctx name ns options = ("", some e)) ∧
    (∀ obj e, (nri.ns ns).get name options = .ok obj →
      yamlMarshal obj.object = .error e →
      r.Get ctx name ns options = ("", some e)) := by
  constructor
  · intro e hstore
    simp [YamlReporter.Get, hr, Option.get!_some, hstore]
  · intro obj e hstore hm
    simp [YamlReporter.Get, hr, Option.get!_some, hstore, hm]

/-- Witness for C8: a missing name yields not-found with an empty string;
a store failure and a serialization failure likewise return "". -/
theorem Get_failure_empty_string_witness :
    reporterPods.Get ctxA "missing" "ns-foo" getOptions0 =
      ("", some (GoError.notFound "not found")) ∧
    reporterFailing.Get ctxA "foo" "ns-foo" getOptions0 =
      ("", some (GoError.storeError "connection refused")) ∧
    reporterBadObj.Get ctxA "foo" "ns-foo" getOptions0 =
      ("", some (GoError.marshalError "chan")) :=
  ⟨(Get_failure_empty_string reporterPods storeNri rfl ctxA "missing" "ns-foo"
      getOptions0).1 (GoError.notFound "not found") rfl,
   (Get_failure_empty_string reporterFailing failingNri rfl ctxA "foo" "ns-foo"
      getOptions0).1 (GoError.storeError "connection refused") rfl,
   (Get_failure_empty_string reporterBadObj badObjNri rfl ctxA "foo" "ns-foo"
      getOptions0).2 { object := .unrepresentable "chan" }
      (GoError.marshalError "chan") rfl rfl⟩

/-- C9: neither `List` nor `Get` reacts to the supplied context: any two
context values give identical results with otherwise identical arguments
and the same reporter, the parameter being accepted but unused. -/
theorem List_Get_ignore_context (r : YamlReporter) (ctx1 ctx2 : Context)
    (name ns : String) (lo : ListOptions) (go : GetOptions) :
    r.List ctx1 ns lo = r.List ctx2 ns lo ∧
    r.Get ctx1 name ns go = r.Get ctx2 name ns go :=
  ⟨rfl, rfl⟩

end Reporter
